import Mathlib

/-!
Verification of the casper-client command-line front end.

The definitions below are a shallow embedding of the Rust sources:

* `SessionMatches` / `PaymentMatches` model the relevant fields of a parsed
  `clap::ArgMatches` as seen by the getters in `src/deploy/creation_common.rs`
  (each optional CLI value is an `Option String`, the transfer flag a `Bool`).
* `sessionStrParams` / `paymentStrParams` embed the functions
  `session_str_params` and `payment_str_params` from
  `src/deploy/creation_common.rs`; the final `unreachable!` branch of the Rust
  code is modelled as `none`.
* Later sections embed `show_arg_examples`, `PutDeploy::run`, `GetBlock::run`
  and `sealed_public_key::get`, and model (from the specification) the parts of
  the `casper_client` library crate that are not among the provided sources:
  the typed-value encoder and the str-params validation step.
-/

namespace CasperClient

/-- The session-related fields of the parsed argument matches, as read by the
getters in `creation_common.rs` (`is_session_transfer`, `session_path`,
`session_hash`, `session_name`, `session_package_hash`, `session_package_name`,
`session_entry_point`, `session_version`, `arg_simple::session`,
`args_complex::session`). -/
structure SessionMatches where
  isTransfer : Bool
  path : Option String
  hash : Option String
  name : Option String
  packageHash : Option String
  packageName : Option String
  entryPoint : Option String
  version : Option String
  argsSimple : List String
  argsComplex : Option String
deriving DecidableEq

/-- The payment-related fields of the parsed argument matches, as read by the
getters in `creation_common.rs` (`standard_payment_amount`, `payment_path`,
`payment_hash`, `payment_name`, `payment_package_hash`, `payment_package_name`,
`payment_entry_point`, `payment_version`, `arg_simple::payment`,
`args_complex::payment`). -/
structure PaymentMatches where
  amount : Option String
  path : Option String
  hash : Option String
  name : Option String
  packageHash : Option String
  packageName : Option String
  entryPoint : Option String
  version : Option String
  argsSimple : List String
  argsComplex : Option String
deriving DecidableEq

/-- The value built by `session_str_params`: one constructor per
`SessionStrParams::with_xxx` constructor invoked in
`src/deploy/creation_common.rs`, carrying exactly the arguments passed there. -/
inductive SessionStrParams
  | withTransfer (argsSimple : List String) (argsComplex : String)
  | withPath (path : String) (argsSimple : List String) (argsComplex : String)
  | withHash (hash entryPoint : String) (argsSimple : List String) (argsComplex : String)
  | withName (name entryPoint : String) (argsSimple : List String) (argsComplex : String)
  | withPackageHash (packageHash version entryPoint : String)
      (argsSimple : List String) (argsComplex : String)
  | withPackageName (packageName version entryPoint : String)
      (argsSimple : List String) (argsComplex : String)
deriving DecidableEq

/-- The value built by `payment_str_params`: one constructor per
`PaymentStrParams::with_xxx` constructor invoked in
`src/deploy/creation_common.rs`, carrying exactly the arguments passed there. -/
inductive PaymentStrParams
  | withAmount (amount : String)
  | withPath (path : String) (argsSimple : List String) (argsComplex : String)
  | withHash (hash entryPoint : String) (argsSimple : List String) (argsComplex : String)
  | withName (name entryPoint : String) (argsSimple : List String) (argsComplex : String)
  | withPackageHash (packageHash version entryPoint : String)
      (argsSimple : List String) (argsComplex : String)
  | withPackageName (packageName version entryPoint : String)
      (argsSimple : List String) (argsComplex : String)
deriving DecidableEq

/-- Embedding of `session_str_params` (`creation_common.rs`, lines 82 to 132).
The getters returning `&str` with `unwrap_or_default` are modelled by
`Option.getD _ ""`; the trailing `unreachable!` is modelled as `none`. -/
def sessionStrParams (m : SessionMatches) : Option SessionStrParams :=
  let argsSimple := m.argsSimple
  let argsComplex := m.argsComplex.getD ""
  if m.isTransfer then some (.withTransfer argsSimple argsComplex)
  else
    match m.path with
    | some p => some (.withPath p argsSimple argsComplex)
    | none =>
      let entryPoint := m.entryPoint.getD ""
      match m.hash with
      | some h => some (.withHash h entryPoint argsSimple argsComplex)
      | none =>
        match m.name with
        | some n => some (.withName n entryPoint argsSimple argsComplex)
        | none =>
          let version := m.version.getD ""
          match m.packageHash with
          | some ph => some (.withPackageHash ph version entryPoint argsSimple argsComplex)
          | none =>
            match m.packageName with
            | some pn =>
                some (.withPackageName pn version entryPoint argsSimple argsComplex)
            | none => none

/-- Embedding of `payment_str_params` (`creation_common.rs`, lines 134 to 184):
the standard-payment amount is checked first, then the same order as the
session resolver; the trailing `unreachable!` is modelled as `none`. -/
def paymentStrParams (m : PaymentMatches) : Option PaymentStrParams :=
  match m.amount with
  | some a => some (.withAmount a)
  | none =>
    let argsSimple := m.argsSimple
    let argsComplex := m.argsComplex.getD ""
    match m.path with
    | some p => some (.withPath p argsSimple argsComplex)
    | none =>
      let entryPoint := m.entryPoint.getD ""
      match m.hash with
      | some h => some (.withHash h entryPoint argsSimple argsComplex)
      | none =>
        match m.name with
        | some n => some (.withName n entryPoint argsSimple argsComplex)
        | none =>
          let version := m.version.getD ""
          match m.packageHash with
          | some ph => some (.withPackageHash ph version entryPoint argsSimple argsComplex)
          | none =>
            match m.packageName with
            | some pn =>
                some (.withPackageName pn version entryPoint argsSimple argsComplex)
            | none => none

/-- The six mutually exclusive session source fields, named after the spec. -/
inductive SessionSource
  | transfer | path | hash | name | packageHash | packageName
deriving DecidableEq

/-- The six mutually exclusive payment source fields, named after the spec. -/
inductive PaymentSource
  | amount | path | hash | name | packageHash | packageName
deriving DecidableEq

/-- Which source variant a built `SessionStrParams` corresponds to. -/
def SessionStrParams.variant : SessionStrParams → SessionSource
  | .withTransfer .. => .transfer
  | .withPath .. => .path
  | .withHash .. => .hash
  | .withName .. => .name
  | .withPackageHash .. => .packageHash
  | .withPackageName .. => .packageName

/-- Which source variant a built `PaymentStrParams` corresponds to. -/
def PaymentStrParams.variant : PaymentStrParams → PaymentSource
  | .withAmount .. => .amount
  | .withPath .. => .path
  | .withHash .. => .hash
  | .withName .. => .name
  | .withPackageHash .. => .packageHash
  | .withPackageName .. => .packageName

/-- Specification-side definition (written from the words of the spec, for
comparison with the code): the first present session source field in the fixed
priority order transfer, path, hash, name, package-hash, package-name. -/
def firstPresentSession (m : SessionMatches) : Option SessionSource :=
  if m.isTransfer then some .transfer
  else if m.path.isSome then some .path
  else if m.hash.isSome then some .hash
  else if m.name.isSome then some .name
  else if m.packageHash.isSome then some .packageHash
  else if m.packageName.isSome then some .packageName
  else none

/-- Specification-side definition: the first present payment source field, with
the standard-payment amount checked first. -/
def firstPresentPayment (m : PaymentMatches) : Option PaymentSource :=
  if m.amount.isSome then some .amount
  else if m.path.isSome then some .path
  else if m.hash.isSome then some .hash
  else if m.name.isSome then some .name
  else if m.packageHash.isSome then some .packageHash
  else if m.packageName.isSome then some .packageName
  else none

/-- How many of the six session source fields are present. -/
def presentCountSession (m : SessionMatches) : Nat :=
  (if m.isTransfer then 1 else 0) + (if m.path.isSome then 1 else 0)
    + (if m.hash.isSome then 1 else 0) + (if m.name.isSome then 1 else 0)
    + (if m.packageHash.isSome then 1 else 0) + (if m.packageName.isSome then 1 else 0)

/-- How many of the six payment source fields are present. -/
def presentCountPayment (m : PaymentMatches) : Nat :=
  (if m.amount.isSome then 1 else 0) + (if m.path.isSome then 1 else 0)
    + (if m.hash.isSome then 1 else 0) + (if m.name.isSome then 1 else 0)
    + (if m.packageHash.isSome then 1 else 0) + (if m.packageName.isSome then 1 else 0)

/-- Replace the entry-point field of session matches, leaving all else equal. -/
def SessionMatches.setEntryPoint (m : SessionMatches) (e : Option String) : SessionMatches :=
  ⟨m.isTransfer, m.path, m.hash, m.name, m.packageHash, m.packageName, e, m.version,
    m.argsSimple, m.argsComplex⟩

/-- Replace the version field of session matches, leaving all else equal. -/
def SessionMatches.setVersion (m : SessionMatches) (v : Option String) : SessionMatches :=
  ⟨m.isTransfer, m.path, m.hash, m.name, m.packageHash, m.packageName, m.entryPoint, v,
    m.argsSimple, m.argsComplex⟩

/-- Replace the entry-point field of payment matches, leaving all else equal. -/
def PaymentMatches.setEntryPoint (m : PaymentMatches) (e : Option String) : PaymentMatches :=
  ⟨m.amount, m.path, m.hash, m.name, m.packageHash, m.packageName, e, m.version,
    m.argsSimple, m.argsComplex⟩

/-- Replace the version field of payment matches, leaving all else equal. -/
def PaymentMatches.setVersion (m : PaymentMatches) (v : Option String) : PaymentMatches :=
  ⟨m.amount, m.path, m.hash, m.name, m.packageHash, m.packageName, m.entryPoint, v,
    m.argsSimple, m.argsComplex⟩

/-- Concrete session input with two source fields present: the transfer flag
and a module path. -/
def sessionConflictInput : SessionMatches :=
  ⟨true, some "code.wasm", none, none, none, none, none, none, [], none⟩

/-- Concrete payment input with two source fields present: the standard
payment amount and a module path. -/
def paymentConflictInput : PaymentMatches :=
  ⟨some "100", some "payment.wasm", none, none, none, none, none, none, [], none⟩

/-- Concrete session input whose only present source field is the transfer
flag. -/
def sessionTransferInput : SessionMatches :=
  ⟨true, none, none, none, none, none, none, none, [], none⟩

/-- Concrete payment input whose only present source field is the standard
payment amount. -/
def paymentAmountInput : PaymentMatches :=
  ⟨some "100", none, none, none, none, none, none, none, [], none⟩

/-- Concrete session input whose only present source field is the stored
contract hash. -/
def sessionHashInput : SessionMatches :=
  ⟨false, none, some "c0ffee", none, none, none, some "call", none, [], none⟩

/-- Concrete payment input whose only present source field is the stored
contract hash. -/
def paymentHashInput : PaymentMatches :=
  ⟨none, none, some "c0ffee", none, none, none, some "call", none, [], none⟩

/-- The closed set of supported type tags (spec §3: bool, i32, i64, u8, u32,
u64, u128, u256, u512, unit, string, key, account_hash, uref, public_key and
optional-wrapped variants thereof). -/
inductive TypeTag
  | bool | i32 | i64 | u8 | u32 | u64 | u128 | u256 | u512
  | unit | string | key | accountHash | uref | publicKey
  | option (inner : TypeTag)
deriving DecidableEq

/-- The textual name of a type tag, as used in the argument grammar. -/
def TypeTag.typeName : TypeTag → String
  | .bool => "bool"
  | .i32 => "i32"
  | .i64 => "i64"
  | .u8 => "u8"
  | .u32 => "u32"
  | .u64 => "u64"
  | .u128 => "u128"
  | .u256 => "u256"
  | .u512 => "u512"
  | .unit => "unit"
  | .string => "string"
  | .key => "key"
  | .accountHash => "account_hash"
  | .uref => "uref"
  | .publicKey => "public_key"
  | .option t => "opt_" ++ t.typeName

/-- Modelled from the spec: one canonical example value per supported type, as
listed by the help text of the library crate (`help::supported_cl_type_examples`
is not among the provided sources). -/
def TypeTag.exampleValue : TypeTag → String
  | .bool => "false"
  | .i32 => "-1"
  | .i64 => "-2"
  | .u8 => "3"
  | .u32 => "4"
  | .u64 => "5"
  | .u128 => "6"
  | .u256 => "7"
  | .u512 => "8"
  | .unit => ""
  | .string => "example"
  | .key =>
      "account-hash-0101010101010101010101010101010101010101010101010101010101010101"
  | .accountHash =>
      "account-hash-0202020202020202020202020202020202020202020202020202020202020202"
  | .uref =>
      "uref-0303030303030303030303030303030303030303030303030303030303030303-007"
  | .publicKey =>
      "0168090665264e06dd6aedb6e5af50c47c2550f2e7991a2f172194b515e6dd3a28"
  | .option t => t.exampleValue

/-- One example line per supported type, in the argument grammar. -/
def TypeTag.exampleLine (t : TypeTag) : String :=
  "name_01:" ++ t.typeName ++ "=" ++ t.exampleValue

/-- The base (not optional-wrapped) supported type tags, in listing order. -/
def baseTypeTags : List TypeTag :=
  [.bool, .i32, .i64, .u8, .u32, .u64, .u128, .u256, .u512,
    .unit, .string, .key, .accountHash, .uref, .publicKey]

/-- All supported type tags: the base tags followed by their optional-wrapped
variants. -/
def supportedTypeTags : List TypeTag :=
  baseTypeTags ++ baseTypeTags.map TypeTag.option

/-- Modelled from the spec: the fixed diagnostic listing with one example per
supported type, computed from the same type-tag enumeration used by the
encoder. -/
def supportedClTypeExamples : String :=
  String.intercalate "\n" (supportedTypeTags.map TypeTag.exampleLine)

/-- The header line printed by `show_arg_examples::get`
(`creation_common.rs`, line 73). -/
def examplesHeaderLine : String :=
  "Examples for passing values via --session-arg or --payment-arg:"

/-- Embedding of `show_arg_examples::get` (`creation_common.rs`, lines 71 to
79): returns whether the flag was set together with the lines it printed. -/
def showArgExamplesGet (flag : Bool) : Bool × List String :=
  if flag then (true, [examplesHeaderLine, supportedClTypeExamples]) else (false, [])

/-- The argument-matches fields of the put-deploy subcommand read by
`PutDeploy::run`. -/
structure PutDeployMatches where
  showArgExamples : Bool
  rpcId : Option String
  nodeAddress : Option String
  verboseValid : Bool
  verboseOccurrences : Nat
  secretKey : Option String
  timestamp : Option String
  ttl : Option String
  chainName : Option String
  session : SessionMatches
  payment : PaymentMatches
deriving DecidableEq

/-- Observable outcome of a subcommand run: either the process exited with a
status code after printing the given lines, or the run carried on to normal
processing (with the resolved session and payment parameters). -/
inductive RunOutcome
  | exited (code : Nat) (printed : List String)
  | completed (printed : List String) (session : Option SessionStrParams)
      (payment : Option PaymentStrParams)
deriving DecidableEq

/-- Embedding of the control flow of `PutDeploy::run` (`deploy/put.rs`, lines
27 to 42): `show_arg_examples_and_exit_if_required` runs first and exits the
process with status 0 when the flag is present; otherwise the remaining
options are processed and the session and payment parameters resolved. -/
def putDeployRun (m : PutDeployMatches) : RunOutcome :=
  let shown := showArgExamplesGet m.showArgExamples
  if shown.1 then .exited 0 shown.2
  else .completed shown.2 (sessionStrParams m.session) (paymentStrParams m.payment)

/-- Embedding of `common::verbose::get` (`common.rs`, lines 32 to 38): the
occurrence count when the arg is valid for the command, otherwise 0. -/
def verboseGet (isValidArg : Bool) (occurrences : Nat) : Nat :=
  if isValidArg then occurrences else 0

/-- Embedding of the verbosity adjustment in `GetBlock::run`
(`block/get.rs`, lines 45 to 48): a zero verbosity level is raised to 1 just
before pretty-printing, any other level is used unchanged. -/
def getBlockPrintLevel (verbosityLevel : Nat) : Nat :=
  if verbosityLevel = 0 then verbosityLevel + 1 else verbosityLevel

/-- The external readers used by `sealed_public_key::get` (`common.rs`):
`pemRead` models `PublicKey::from_file` followed by `to_hex` (the hex of the
key on success), `fileRead` models `fs::read_to_string`, and `parseHex` models
a successful `PublicKey::from_hex` (whose value is discarded by the code). -/
structure PublicKeyReaders where
  pemRead : String → Option String
  fileRead : String → Option String
  parseHex : String → Option Unit

/-- Result of `sealed_public_key::get`: the returned string, or the
`FailedToParsePublicKey` error. -/
inductive PublicKeyResult
  | ok (value : String)
  | failedToParsePublicKey
deriving DecidableEq

/-- Embedding of `sealed_public_key::get` (`common.rs`, lines 225 to 259):
try the value as a PEM public-key file first, then as a readable text file
whose contents must parse as a hex public key, and otherwise return the raw
string unchanged. -/
def sealedPublicKeyGet (r : PublicKeyReaders) (value : String) : PublicKeyResult :=
  match r.pemRead value with
  | some hexOfKey => .ok hexOfKey
  | none =>
    match r.fileRead value with
    | some contents =>
      match r.parseHex contents with
      | some _ => .ok contents
      | none => .failedToParsePublicKey
    | none => .ok value

/-- Readers for which the value is neither a PEM file nor a readable file. -/
def noReaders : PublicKeyReaders :=
  ⟨fun _ => none, fun _ => none, fun _ => none⟩

/-- Canonical execution targets (spec §3 `ExecutionTarget`). -/
inductive ExecutionTarget
  | inlineCode (path : String)
  | storedContractByHash (hash entryPoint : String)
  | storedContractByName (name entryPoint : String)
  | storedPackageByHash (hash version entryPoint : String)
  | storedPackageByName (name version entryPoint : String)
  | transfer
  | standardPayment (amount : String)
deriving DecidableEq

/-- The error kinds of the target-resolution step (spec §7; kinds, not
names). -/
inductive CliErrKind
  | conflictingArguments
  | missingRequiredField
deriving DecidableEq

/-- Whether a built `SessionStrParams` is one of the four stored variants. -/
def SessionStrParams.isStored : SessionStrParams → Bool
  | .withHash .. | .withName .. | .withPackageHash .. | .withPackageName .. => true
  | _ => false

/-- The entry-point field carried by a built `SessionStrParams` (empty when
the variant carries none). -/
def SessionStrParams.entryPointField : SessionStrParams → String
  | .withHash _ ep _ _ => ep
  | .withName _ ep _ _ => ep
  | .withPackageHash _ _ ep _ _ => ep
  | .withPackageName _ _ ep _ _ => ep
  | _ => ""

/-- Whether a built `PaymentStrParams` is one of the four stored variants. -/
def PaymentStrParams.isStored : PaymentStrParams → Bool
  | .withHash .. | .withName .. | .withPackageHash .. | .withPackageName .. => true
  | _ => false

/-- The entry-point field carried by a built `PaymentStrParams` (empty when
the variant carries none). -/
def PaymentStrParams.entryPointField : PaymentStrParams → String
  | .withHash _ ep _ _ => ep
  | .withName _ ep _ _ => ep
  | .withPackageHash _ _ ep _ _ => ep
  | .withPackageName _ _ ep _ _ => ep
  | _ => ""

/-- The entry point of an execution target, when its variant has one. -/
def ExecutionTarget.entryPointOf : ExecutionTarget → Option String
  | .storedContractByHash _ ep => some ep
  | .storedContractByName _ ep => some ep
  | .storedPackageByHash _ _ ep => some ep
  | .storedPackageByName _ _ ep => some ep
  | _ => none

/-- Modelled from the spec: the session-side validation step of the library
crate (not among the provided sources) that turns built str-params into an
execution target, requiring a non-empty entry point exactly for the four
stored variants. -/
def sessionExecutableDeployItem : SessionStrParams → Except CliErrKind ExecutionTarget
  | .withTransfer _ _ => .ok .transfer
  | .withPath p _ _ => .ok (.inlineCode p)
  | .withHash h ep _ _ =>
      if ep = "" then .error .missingRequiredField
      else .ok (.storedContractByHash h ep)
  | .withName n ep _ _ =>
      if ep = "" then .error .missingRequiredField
      else .ok (.storedContractByName n ep)
  | .withPackageHash ph v ep _ _ =>
      if ep = "" then .error .missingRequiredField
      else .ok (.storedPackageByHash ph v ep)
  | .withPackageName pn v ep _ _ =>
      if ep = "" then .error .missingRequiredField
      else .ok (.storedPackageByName pn v ep)

/-- Modelled from the spec: the payment-side validation step of the library
crate (not among the provided sources), the payment analogue of
`sessionExecutableDeployItem`. -/
def paymentExecutableDeployItem : PaymentStrParams → Except CliErrKind ExecutionTarget
  | .withAmount a => .ok (.standardPayment a)
  | .withPath p _ _ => .ok (.inlineCode p)
  | .withHash h ep _ _ =>
      if ep = "" then .error .missingRequiredField
      else .ok (.storedContractByHash h ep)
  | .withName n ep _ _ =>
      if ep = "" then .error .missingRequiredField
      else .ok (.storedContractByName n ep)
  | .withPackageHash ph v ep _ _ =>
      if ep = "" then .error .missingRequiredField
      else .ok (.storedPackageByHash ph v ep)
  | .withPackageName pn v ep _ _ =>
      if ep = "" then .error .missingRequiredField
      else .ok (.storedPackageByName pn v ep)

/-- Little-endian fixed-width byte list of a natural number: `w` bytes, least
significant first. -/
def leBytes : Nat → Nat → List Nat
  | 0, _ => []
  | w + 1, n => n % 256 :: leBytes w (n / 256)

/-- The natural number denoted by a little-endian byte list. -/
def leVal : List Nat → Nat
  | [] => 0
  | b :: bs => b + 256 * leVal bs

/-- Reading a two's-complement unsigned representative back as an integer:
values below `half` are non-negative, the rest wrap down by `full`. -/
def toSignedVal (half full n : Nat) : Int :=
  if n < half then (n : Int) else (n : Int) - (full : Int)

/-- The non-negative two's-complement representative of an integer modulo
`full`. -/
def toUnsignedRep (full : Nat) (i : Int) : Nat :=
  (i % (full : Int)).toNat

/-- The three formatted sub-encodings of a key value (spec §4.2): an
account-hash-tagged digest, a hash-tagged digest, or a uref with access
rights; each maps to a distinct on-wire discriminant. -/
inductive KeyVal
  | account (digest : List Nat)
  | hash (digest : List Nat)
  | uref (addr : List Nat) (accessRights : Nat)
deriving DecidableEq

/-- Modelled from the spec: the typed values of the value encoder of the
library crate (`cli` argument parsing is not among the provided sources), one
constructor per supported type tag, with byte-level payloads for the formatted
kinds. -/
inductive CLVal
  | vBool (b : Bool)
  | vI32 (i : Int)
  | vI64 (i : Int)
  | vU8 (n : Nat)
  | vU32 (n : Nat)
  | vU64 (n : Nat)
  | vU128 (n : Nat)
  | vU256 (n : Nat)
  | vU512 (n : Nat)
  | vUnit
  | vString (bytes : List Nat)
  | vKey (k : KeyVal)
  | vAccountHash (digest : List Nat)
  | vURef (addr : List Nat) (accessRights : Nat)
  | vPublicKey (alg : Nat) (bytes : List Nat)
  | vNone (inner : TypeTag)
  | vSome (v : CLVal)
deriving DecidableEq

/-- The type tag a typed value belongs to. -/
def CLVal.tagOf : CLVal → TypeTag
  | .vBool _ => .bool
  | .vI32 _ => .i32
  | .vI64 _ => .i64
  | .vU8 _ => .u8
  | .vU32 _ => .u32
  | .vU64 _ => .u64
  | .vU128 _ => .u128
  | .vU256 _ => .u256
  | .vU512 _ => .u512
  | .vUnit => .unit
  | .vString _ => .string
  | .vKey _ => .key
  | .vAccountHash _ => .accountHash
  | .vURef _ _ => .uref
  | .vPublicKey _ _ => .publicKey
  | .vNone t => .option t
  | .vSome v => .option v.tagOf

/-- Whether a typed value is representable in its type: integers within the
bit width of their tag, strings shorter than the 4-byte length header allows,
digests of exactly 32 bytes, access rights and bytes below 256, and public
keys with the algorithm-determined length (32 bytes for tag 1, 33 for
tag 2). -/
def CLVal.wellFormed : CLVal → Bool
  | .vBool _ => true
  | .vI32 i => decide (-(2 ^ 31 : Int) ≤ i ∧ i < 2 ^ 31)
  | .vI64 i => decide (-(2 ^ 63 : Int) ≤ i ∧ i < 2 ^ 63)
  | .vU8 n => decide (n < 2 ^ 8)
  | .vU32 n => decide (n < 2 ^ 32)
  | .vU64 n => decide (n < 2 ^ 64)
  | .vU128 n => decide (n < 2 ^ 128)
  | .vU256 n => decide (n < 2 ^ 256)
  | .vU512 n => decide (n < 2 ^ 512)
  | .vUnit => true
  | .vString s => decide (s.length < 2 ^ 32) && s.all (fun b => b < 256)
  | .vKey (.account d) => decide (d.length = 32) && d.all (fun b => b < 256)
  | .vKey (.hash d) => decide (d.length = 32) && d.all (fun b => b < 256)
  | .vKey (.uref a r) =>
      decide (a.length = 32) && a.all (fun b => b < 256) && decide (r < 256)
  | .vAccountHash d => decide (d.length = 32) && d.all (fun b => b < 256)
  | .vURef a r => decide (a.length = 32) && a.all (fun b => b < 256) && decide (r < 256)
  | .vPublicKey alg bs =>
      ((decide (alg = 1) && decide (bs.length = 32)) ||
        (decide (alg = 2) && decide (bs.length = 33))) && bs.all (fun b => b < 256)
  | .vNone _ => true
  | .vSome v => v.wellFormed

/-- Modelled from the spec: the canonical, deterministic binary encoding of a
typed value — fixed-width little-endian integers (two's complement for the
signed ones), a 4-byte length header for strings, a discriminant byte for key
kinds, option wrappers and public-key algorithms, and the access-rights byte
as a uref suffix. -/
def CLVal.encode : CLVal → List Nat
  | .vBool b => [if b then 1 else 0]
  | .vI32 i => leBytes 4 (toUnsignedRep (2 ^ 32) i)
  | .vI64 i => leBytes 8 (toUnsignedRep (2 ^ 64) i)
  | .vU8 n => leBytes 1 n
  | .vU32 n => leBytes 4 n
  | .vU64 n => leBytes 8 n
  | .vU128 n => leBytes 16 n
  | .vU256 n => leBytes 32 n
  | .vU512 n => leBytes 64 n
  | .vUnit => []
  | .vString s => leBytes 4 s.length ++ s
  | .vKey (.account d) => 0 :: d
  | .vKey (.hash d) => 1 :: d
  | .vKey (.uref a r) => 2 :: (a ++ [r])
  | .vAccountHash d => d
  | .vURef a r => a ++ [r]
  | .vPublicKey alg bs => alg :: bs
  | .vNone _ => [0]
  | .vSome v => 1 :: v.encode

/-- Modelled from the spec: decoding a byte sequence at a given type tag,
the inverse direction of `CLVal.encode`; `none` models a decode failure. -/
def decode : TypeTag → List Nat → Option CLVal
  | .bool, bs =>
    match bs with
    | [0] => some (.vBool false)
    | [1] => some (.vBool true)
    | _ => none
  | .i32, bs =>
      if bs.length = 4 then some (.vI32 (toSignedVal (2 ^ 31) (2 ^ 32) (leVal bs))) else none
  | .i64, bs =>
      if bs.length = 8 then some (.vI64 (toSignedVal (2 ^ 63) (2 ^ 64) (leVal bs))) else none
  | .u8, bs => if bs.length = 1 then some (.vU8 (leVal bs)) else none
  | .u32, bs => if bs.length = 4 then some (.vU32 (leVal bs)) else none
  | .u64, bs => if bs.length = 8 then some (.vU64 (leVal bs)) else none
  | .u128, bs => if bs.length = 16 then some (.vU128 (leVal bs)) else none
  | .u256, bs => if bs.length = 32 then some (.vU256 (leVal bs)) else none
  | .u512, bs => if bs.length = 64 then some (.vU512 (leVal bs)) else none
  | .unit, bs => if bs.isEmpty then some .vUnit else none
  | .string, bs =>
      if bs.length = 4 + leVal (bs.take 4) then some (.vString (bs.drop 4)) else none
  | .key, bs =>
    match bs with
    | 0 :: rest => if rest.length = 32 then some (.vKey (.account rest)) else none
    | 1 :: rest => if rest.length = 32 then some (.vKey (.hash rest)) else none
    | 2 :: rest =>
        if rest.length = 33 then
          some (.vKey (.uref (rest.take 32) ((rest.drop 32).headD 0)))
        else none
    | _ => none
  | .accountHash, bs => if bs.length = 32 then some (.vAccountHash bs) else none
  | .uref, bs =>
      if bs.length = 33 then some (.vURef (bs.take 32) ((bs.drop 32).headD 0)) else none
  | .publicKey, bs =>
    match bs with
    | 1 :: rest => if rest.length = 32 then some (.vPublicKey 1 rest) else none
    | 2 :: rest => if rest.length = 33 then some (.vPublicKey 2 rest) else none
    | _ => none
  | .option t, bs =>
    match bs with
    | 0 :: rest => if rest.isEmpty then some (.vNone t) else none
    | 1 :: rest => (decode t rest).map .vSome
    | _ => none

lemma leBytes_length (w n : Nat) : (leBytes w n).length = w := by
  induction w generalizing n with
  | zero => rfl
  | succ w ih => simp [leBytes, ih]

lemma leVal_leBytes (w n : Nat) (h : n < 256 ^ w) : leVal (leBytes w n) = n := by
  induction w generalizing n with
  | zero =>
    simp only [pow_zero, Nat.lt_one_iff] at h
    simp [h, leBytes, leVal]
  | succ w ih =>
    have h2 : n / 256 < 256 ^ w := by
      rw [Nat.div_lt_iff_lt_mul (by norm_num)]
      calc n < 256 ^ (w + 1) := h
        _ = 256 ^ w * 256 := by rw [pow_succ]
    simp [leBytes, leVal, ih _ h2]
    omega

lemma take_append_of_len (l1 l2 : List Nat) (n : Nat) (h : l1.length = n) :
    (l1 ++ l2).take n = l1 := by
  subst h
  induction l1 with
  | nil => rfl
  | cons a t ih => simp [ih]

lemma drop_append_of_len (l1 l2 : List Nat) (n : Nat) (h : l1.length = n) :
    (l1 ++ l2).drop n = l2 := by
  subst h
  induction l1 with
  | nil => rfl
  | cons a t ih => simp [ih]

lemma toUnsignedRep_lt_32 (i : Int) : toUnsignedRep (2 ^ 32) i < 256 ^ 4 := by
  have hc : ((2 ^ 32 : Nat) : Int) = 4294967296 := by norm_num
  simp only [toUnsignedRep, hc]
  omega

lemma toUnsignedRep_lt_64 (i : Int) : toUnsignedRep (2 ^ 64) i < 256 ^ 8 := by
  have hc : ((2 ^ 64 : Nat) : Int) = 18446744073709551616 := by norm_num
  simp only [toUnsignedRep, hc]
  omega

lemma toSigned_roundtrip_32 (i : Int) (h1 : -(2 ^ 31) ≤ i) (h2 : i < 2 ^ 31) :
    toSignedVal (2 ^ 31) (2 ^ 32) (toUnsignedRep (2 ^ 32) i) = i := by
  have hc : ((2 ^ 32 : Nat) : Int) = 4294967296 := by norm_num
  simp only [toSignedVal, toUnsignedRep, hc]
  split <;> omega

lemma toSigned_roundtrip_64 (i : Int) (h1 : -(2 ^ 63) ≤ i) (h2 : i < 2 ^ 63) :
    toSignedVal (2 ^ 63) (2 ^ 64) (toUnsignedRep (2 ^ 64) i) = i := by
  have hc : ((2 ^ 64 : Nat) : Int) = 18446744073709551616 := by norm_num
  simp only [toSignedVal, toUnsignedRep, hc]
  split <;> omega

lemma sessionStrParams_map_variant (m : SessionMatches) :
    (sessionStrParams m).map SessionStrParams.variant = firstPresentSession m := by
  obtain ⟨t, p, h, n, ph, pn, ep, v, as, ac⟩ := m
  cases t <;> cases p <;> cases h <;> cases n <;> cases ph <;> cases pn <;> rfl

lemma paymentStrParams_map_variant (m : PaymentMatches) :
    (paymentStrParams m).map PaymentStrParams.variant = firstPresentPayment m := by
  obtain ⟨a, p, h, n, ph, pn, ep, v, as, ac⟩ := m
  cases a <;> cases p <;> cases h <;> cases n <;> cases ph <;> cases pn <;> rfl

lemma sessionStrParams_eq_none_iff (m : SessionMatches) :
    sessionStrParams m = none ↔ presentCountSession m = 0 := by
  obtain ⟨t, p, h, n, ph, pn, ep, v, as, ac⟩ := m
  cases t <;> cases p <;> cases h <;> cases n <;> cases ph <;> cases pn <;>
    simp [sessionStrParams, presentCountSession]

lemma paymentStrParams_eq_none_iff (m : PaymentMatches) :
    paymentStrParams m = none ↔ presentCountPayment m = 0 := by
  obtain ⟨a, p, h, n, ph, pn, ep, v, as, ac⟩ := m
  cases a <;> cases p <;> cases h <;> cases n <;> cases ph <;> cases pn <;>
    simp [paymentStrParams, presentCountPayment]

lemma sessionStrParams_setEntryPoint (m : SessionMatches) (e : Option String)
    (h : firstPresentSession m = some .transfer ∨ firstPresentSession m = some .path) :
    sessionStrParams (m.setEntryPoint e) = sessionStrParams m := by
  obtain ⟨t, p, hh, n, ph, pn, ep, v, as, ac⟩ := m
  cases t <;> cases p <;>
    first
      | rfl
      | (cases hh <;> cases n <;> cases ph <;> cases pn <;> simp [firstPresentSession] at h)

lemma paymentStrParams_setEntryPoint (m : PaymentMatches) (e : Option String)
    (h : firstPresentPayment m = some .amount ∨ firstPresentPayment m = some .path) :
    paymentStrParams (m.setEntryPoint e) = paymentStrParams m := by
  obtain ⟨a, p, hh, n, ph, pn, ep, v, as, ac⟩ := m
  cases a <;> cases p <;>
    first
      | rfl
      | (cases hh <;> cases n <;> cases ph <;> cases pn <;> simp [firstPresentPayment] at h)

lemma sessionStrParams_setVersion (m : SessionMatches) (v2 : Option String)
    (h : firstPresentSession m = some .transfer ∨ firstPresentSession m = some .path ∨
      firstPresentSession m = some .hash ∨ firstPresentSession m = some .name) :
    sessionStrParams (m.setVersion v2) = sessionStrParams m := by
  obtain ⟨t, p, hh, n, ph, pn, ep, v, as, ac⟩ := m
  cases t <;> cases p <;> cases hh <;> cases n <;>
    first
      | rfl
      | (cases ph <;> cases pn <;> simp [firstPresentSession] at h)

lemma paymentStrParams_setVersion (m : PaymentMatches) (v2 : Option String)
    (h : firstPresentPayment m = some .amount ∨ firstPresentPayment m = some .path ∨
      firstPresentPayment m = some .hash ∨ firstPresentPayment m = some .name) :
    paymentStrParams (m.setVersion v2) = paymentStrParams m := by
  obtain ⟨a, p, hh, n, ph, pn, ep, v, as, ac⟩ := m
  cases a <;> cases p <;> cases hh <;> cases n <;>
    first
      | rfl
      | (cases ph <;> cases pn <;> simp [firstPresentPayment] at h)

/-- C1 counterexample: at a session input with two source fields present (the
transfer flag and a path) resolution does not fail at all: it silently returns
the transfer variant; likewise the payment resolver at an input with both a
standard amount and a path silently returns the standard-payment variant.
Neither resolver can return a ConflictingArguments error: its return type has
no error case, and the two-present inputs below resolve to ordinary targets. -/
theorem c1_conflicting_counterexample :
    2 ≤ presentCountSession sessionConflictInput ∧
      sessionStrParams sessionConflictInput = some (SessionStrParams.withTransfer [] "") ∧
      2 ≤ presentCountPayment paymentConflictInput ∧
      paymentStrParams paymentConflictInput = some (PaymentStrParams.withAmount "100") :=
  ⟨by decide, rfl, by decide, rfl⟩

/-- C1 (amended): whenever two or more of the mutually exclusive source fields
are present, resolution does not fail with a ConflictingArguments error:
it silently returns the variant of the first present field in the fixed
priority order (mutual exclusion is enforced upstream by the clap argument
groups, not re-validated by the resolver). -/
theorem c1_first_present_silently_selected (sm : SessionMatches) (pm : PaymentMatches)
    (hs : 2 ≤ presentCountSession sm) (hp : 2 ≤ presentCountPayment pm) :
    (sessionStrParams sm).isSome = true ∧
      (sessionStrParams sm).map SessionStrParams.variant = firstPresentSession sm ∧
      (paymentStrParams pm).isSome = true ∧
      (paymentStrParams pm).map PaymentStrParams.variant = firstPresentPayment pm := by
  refine ⟨?_, sessionStrParams_map_variant sm, ?_, paymentStrParams_map_variant pm⟩
  · rcases hh : sessionStrParams sm with _ | p
    · rw [sessionStrParams_eq_none_iff] at hh; omega
    · rfl
  · rcases hh : paymentStrParams pm with _ | p
    · rw [paymentStrParams_eq_none_iff] at hh; omega
    · rfl

/-- C1 witness: the amended statement evaluated at the concrete two-present
inputs. -/
theorem c1_first_present_silently_selected_witness :
    (sessionStrParams sessionConflictInput).isSome = true ∧
      (sessionStrParams sessionConflictInput).map SessionStrParams.variant =
        firstPresentSession sessionConflictInput ∧
      (paymentStrParams paymentConflictInput).isSome = true ∧
      (paymentStrParams paymentConflictInput).map PaymentStrParams.variant =
        firstPresentPayment paymentConflictInput :=
  c1_first_present_silently_selected sessionConflictInput paymentConflictInput
    (by decide) (by decide)

/-- C2: for every input, the session resolver returns exactly the variant of
the first present source field in the fixed priority order transfer, path,
hash, name, package-hash, package-name, and the payment resolver returns the
variant of the first present field with the standard-payment amount checked
before path (both sides are `none` exactly when no field is present). -/
theorem c2_priority_order (sm : SessionMatches) (pm : PaymentMatches) :
    (sessionStrParams sm).map SessionStrParams.variant = firstPresentSession sm ∧
      (paymentStrParams pm).map PaymentStrParams.variant = firstPresentPayment pm :=
  ⟨sessionStrParams_map_variant sm, paymentStrParams_map_variant pm⟩

/-- C4: the session and payment resolvers reach their trailing
unreachable-state branch (modelled as `none`) exactly when none of the source
fields is present; equivalently, with at least one source field present the
unreachable branch is never reached and a target is returned. -/
theorem c4_zero_fields_unreachable (sm : SessionMatches) (pm : PaymentMatches) :
    (sessionStrParams sm = none ↔ presentCountSession sm = 0) ∧
      (paymentStrParams pm = none ↔ presentCountPayment pm = 0) :=
  ⟨sessionStrParams_eq_none_iff sm, paymentStrParams_eq_none_iff pm⟩

/-- C6: when the resolved session variant is the transfer or the inline-code
(path) variant, the entry-point field is ignored: changing only the
entry-point field of the input leaves the resolver result identical; likewise
for the payment resolver when the resolved variant is standard payment or
inline code. -/
theorem c6_entry_point_ignored (sm : SessionMatches) (pm : PaymentMatches)
    (e ep : Option String)
    (hs : (sessionStrParams sm).map SessionStrParams.variant = some .transfer ∨
      (sessionStrParams sm).map SessionStrParams.variant = some .path)
    (hp : (paymentStrParams pm).map PaymentStrParams.variant = some .amount ∨
      (paymentStrParams pm).map PaymentStrParams.variant = some .path) :
    sessionStrParams (sm.setEntryPoint e) = sessionStrParams sm ∧
      paymentStrParams (pm.setEntryPoint ep) = paymentStrParams pm := by
  rw [sessionStrParams_map_variant] at hs
  rw [paymentStrParams_map_variant] at hp
  exact ⟨sessionStrParams_setEntryPoint sm e hs, paymentStrParams_setEntryPoint pm ep hp⟩

/-- C6 witness: the theorem evaluated at a transfer-only session input and an
amount-only payment input, with the entry point changed to an arbitrary
value. -/
theorem c6_entry_point_ignored_witness :
    sessionStrParams (sessionTransferInput.setEntryPoint (some "ep")) =
        sessionStrParams sessionTransferInput ∧
      paymentStrParams (paymentAmountInput.setEntryPoint (some "ep")) =
        paymentStrParams paymentAmountInput :=
  c6_entry_point_ignored sessionTransferInput paymentAmountInput (some "ep") (some "ep")
    (by decide) (by decide)

/-- C7: the version field affects the resolver result only for the two package
variants: for every input resolving to the transfer, path, hash or name
variant of the session resolver (amount, path, hash or name for payment),
changing the version field, in particular adding or removing one, leaves the
result identical, and a present version is not an error. -/
theorem c7_version_ignored_outside_packages (sm : SessionMatches) (pm : PaymentMatches)
    (v vp : Option String)
    (hs : (sessionStrParams sm).map SessionStrParams.variant = some .transfer ∨
      (sessionStrParams sm).map SessionStrParams.variant = some .path ∨
      (sessionStrParams sm).map SessionStrParams.variant = some .hash ∨
      (sessionStrParams sm).map SessionStrParams.variant = some .name)
    (hp : (paymentStrParams pm).map PaymentStrParams.variant = some .amount ∨
      (paymentStrParams pm).map PaymentStrParams.variant = some .path ∨
      (paymentStrParams pm).map PaymentStrParams.variant = some .hash ∨
      (paymentStrParams pm).map PaymentStrParams.variant = some .name) :
    sessionStrParams (sm.setVersion v) = sessionStrParams sm ∧
      paymentStrParams (pm.setVersion vp) = paymentStrParams pm := by
  rw [sessionStrParams_map_variant] at hs
  rw [paymentStrParams_map_variant] at hp
  exact ⟨sessionStrParams_setVersion sm v hs, paymentStrParams_setVersion pm vp hp⟩

/-- C7 witness: the theorem evaluated at hash-variant session and payment
inputs, with a version added. -/
theorem c7_version_ignored_outside_packages_witness :
    sessionStrParams (sessionHashInput.setVersion (some "2")) =
        sessionStrParams sessionHashInput ∧
      paymentStrParams (paymentHashInput.setVersion (some "2")) =
        paymentStrParams paymentHashInput :=
  c7_version_ignored_outside_packages sessionHashInput paymentHashInput (some "2") (some "2")
    (by decide) (by decide)

/-- C5: whenever the resolved variant is a stored contract or stored package
(by hash or by name), the entry point is required and validated as non-empty:
validation of str-params whose entry-point field is empty (the getter default
when the field is absent) fails with the missing-required-field error, and a
successfully validated target never carries an empty entry point. -/
theorem c5_entry_point_required :
    (∀ p : SessionStrParams, p.isStored = true → p.entryPointField = "" →
        sessionExecutableDeployItem p = .error .missingRequiredField) ∧
      (∀ p : PaymentStrParams, p.isStored = true → p.entryPointField = "" →
        paymentExecutableDeployItem p = .error .missingRequiredField) ∧
      (∀ (p : SessionStrParams) (t : ExecutionTarget),
        sessionExecutableDeployItem p = .ok t → t.entryPointOf ≠ some "") ∧
      (∀ (p : PaymentStrParams) (t : ExecutionTarget),
        paymentExecutableDeployItem p = .ok t → t.entryPointOf ≠ some "") := by
  refine ⟨?_, ?_, ?_, ?_⟩
  · intro p hst hep
    cases p <;>
      simp_all [sessionExecutableDeployItem, SessionStrParams.isStored,
        SessionStrParams.entryPointField]
  · intro p hst hep
    cases p <;>
      simp_all [paymentExecutableDeployItem, PaymentStrParams.isStored,
        PaymentStrParams.entryPointField]
  · intro p t hok
    cases p <;> simp only [sessionExecutableDeployItem] at hok <;>
      (try split at hok) <;> cases hok <;> simp_all [ExecutionTarget.entryPointOf]
  · intro p t hok
    cases p <;> simp only [paymentExecutableDeployItem] at hok <;>
      (try split at hok) <;> cases hok <;> simp_all [ExecutionTarget.entryPointOf]

/-- C5 witness: validation evaluated at stored-contract str-params with an
empty entry point, for the session and for the payment side. -/
theorem c5_entry_point_required_witness :
    sessionExecutableDeployItem (SessionStrParams.withHash "c0ffee" "" [] "") =
        .error .missingRequiredField ∧
      paymentExecutableDeployItem (PaymentStrParams.withName "counter" "" [] "") =
        .error .missingRequiredField :=
  ⟨c5_entry_point_required.1 (.withHash "c0ffee" "" [] "") rfl rfl,
    c5_entry_point_required.2.1 (.withName "counter" "" [] "") rfl rfl⟩

/-- C8: when the show-arg-examples flag is set, the run prints the header and
the fixed listing of one example per supported type and exits with status 0
before any other option is processed (the outcome does not depend on any other
field); when the flag is absent the check returns false, nothing is printed,
and normal processing continues. -/
theorem c8_show_arg_examples (m : PutDeployMatches) :
    putDeployRun m =
        (if m.showArgExamples then
          .exited 0 [examplesHeaderLine, supportedClTypeExamples]
        else
          .completed [] (sessionStrParams m.session) (paymentStrParams m.payment)) ∧
      showArgExamplesGet false = (false, []) := by
  constructor
  · cases h : m.showArgExamples <;> simp [putDeployRun, showArgExamplesGet, h]
  · rfl

/-- C9: the get-block command pretty-prints at verbosity level at least 1: a
user-supplied count of 0 is raised to 1 before printing and any other count is
used unchanged (for naturals this is exactly the maximum with 1). -/
theorem c9_get_block_verbosity (v : Nat) :
    1 ≤ getBlockPrintLevel v ∧ getBlockPrintLevel v = max 1 v := by
  unfold getBlockPrintLevel
  split <;> omega

/-- C10: when the supplied value can be read neither as a PEM public-key file
nor as a readable text file, `sealed_public_key::get` returns the raw string
Ok verbatim without validating it as a public key; and the
FailedToParsePublicKey error is returned exactly when the value is not a PEM
key file but names a readable text file whose contents fail to parse as a
hex-encoded public key. -/
theorem c10_public_key_fallback (r : PublicKeyReaders) (value : String) :
    (r.pemRead value = none → r.fileRead value = none →
        sealedPublicKeyGet r value = .ok value) ∧
      (sealedPublicKeyGet r value = .failedToParsePublicKey ↔
        r.pemRead value = none ∧
          ∃ contents, r.fileRead value = some contents ∧ r.parseHex contents = none) := by
  constructor
  · intro h1 h2
    simp [sealedPublicKeyGet, h1, h2]
  · rcases hp : r.pemRead value with _ | k
    · rcases hf : r.fileRead value with _ | c
      · simp [sealedPublicKeyGet, hp, hf]
      · rcases hx : r.parseHex c with _ | u
        · simp [sealedPublicKeyGet, hp, hf, hx]
        · simp [sealedPublicKeyGet, hp, hf, hx]
    · simp [sealedPublicKeyGet, hp]

/-- C10 witness: with readers for which the value is neither a PEM file nor a
readable file, the raw string comes back Ok verbatim. -/
theorem c10_public_key_fallback_witness :
    sealedPublicKeyGet noReaders "0123abc" = .ok "0123abc" :=
  (c10_public_key_fallback noReaders "0123abc").1 rfl rfl

/-- C3: for every supported type tag and every value representable in it,
decoding the encoded value with its own type tag reproduces the value:
decode (encode v) = some v whenever v is well formed. -/
theorem c3_decode_encode_roundtrip (v : CLVal) (h : v.wellFormed = true) :
    decode v.tagOf v.encode = some v := by
  induction v with
  | vBool b => cases b <;> rfl
  | vI32 i =>
    simp only [CLVal.wellFormed, decide_eq_true_eq] at h
    simp only [CLVal.tagOf, CLVal.encode, decode, leBytes_length, if_true,
      leVal_leBytes 4 _ (toUnsignedRep_lt_32 i)]
    rw [toSigned_roundtrip_32 i h.1 h.2]
  | vI64 i =>
    simp only [CLVal.wellFormed, decide_eq_true_eq] at h
    simp only [CLVal.tagOf, CLVal.encode, decode, leBytes_length, if_true,
      leVal_leBytes 8 _ (toUnsignedRep_lt_64 i)]
    rw [toSigned_roundtrip_64 i h.1 h.2]
  | vU8 n =>
    simp only [CLVal.wellFormed, decide_eq_true_eq] at h
    have hb : n < 256 ^ 1 := by omega
    simp [CLVal.tagOf, CLVal.encode, decode, leBytes_length, leVal_leBytes 1 n hb]
  | vU32 n =>
    simp only [CLVal.wellFormed, decide_eq_true_eq] at h
    have hb : n < 256 ^ 4 := by omega
    simp [CLVal.tagOf, CLVal.encode, decode, leBytes_length, leVal_leBytes 4 n hb]
  | vU64 n =>
    simp only [CLVal.wellFormed, decide_eq_true_eq] at h
    have hb : n < 256 ^ 8 := by omega
    simp [CLVal.tagOf, CLVal.encode, decode, leBytes_length, leVal_leBytes 8 n hb]
  | vU128 n =>
    simp only [CLVal.wellFormed, decide_eq_true_eq] at h
    have hb : n < 256 ^ 16 := by omega
    simp [CLVal.tagOf, CLVal.encode, decode, leBytes_length, leVal_leBytes 16 n hb]
  | vU256 n =>
    simp only [CLVal.wellFormed, decide_eq_true_eq] at h
    have hb : n < 256 ^ 32 := by omega
    simp [CLVal.tagOf, CLVal.encode, decode, leBytes_length, leVal_leBytes 32 n hb]
  | vU512 n =>
    simp only [CLVal.wellFormed, decide_eq_true_eq] at h
    have hb : n < 256 ^ 64 := by omega
    simp [CLVal.tagOf, CLVal.encode, decode, leBytes_length, leVal_leBytes 64 n hb]
  | vUnit => rfl
  | vString s =>
    simp only [CLVal.wellFormed, Bool.and_eq_true, decide_eq_true_eq] at h
    obtain ⟨hlen, -⟩ := h
    have hb : s.length < 256 ^ 4 := by omega
    simp only [CLVal.tagOf, CLVal.encode, decode]
    rw [take_append_of_len _ _ _ (leBytes_length 4 s.length), leVal_leBytes 4 _ hb,
      drop_append_of_len _ _ _ (leBytes_length 4 s.length)]
    simp [leBytes_length]
  | vKey k =>
    cases k with
    | account d =>
      simp only [CLVal.wellFormed, Bool.and_eq_true, decide_eq_true_eq] at h
      obtain ⟨h32, -⟩ := h
      simp [CLVal.tagOf, CLVal.encode, decode, h32]
    | hash d =>
      simp only [CLVal.wellFormed, Bool.and_eq_true, decide_eq_true_eq] at h
      obtain ⟨h32, -⟩ := h
      simp [CLVal.tagOf, CLVal.encode, decode, h32]
    | uref a r =>
      simp only [CLVal.wellFormed, Bool.and_eq_true, decide_eq_true_eq] at h
      obtain ⟨⟨h32, -⟩, -⟩ := h
      simp [CLVal.tagOf, CLVal.encode, decode, h32,
        take_append_of_len a [r] 32 h32, drop_append_of_len a [r] 32 h32]
  | vAccountHash d =>
    simp only [CLVal.wellFormed, Bool.and_eq_true, decide_eq_true_eq] at h
    obtain ⟨h32, -⟩ := h
    simp [CLVal.tagOf, CLVal.encode, decode, h32]
  | vURef a r =>
    simp only [CLVal.wellFormed, Bool.and_eq_true, decide_eq_true_eq] at h
    obtain ⟨⟨h32, -⟩, -⟩ := h
    simp [CLVal.tagOf, CLVal.encode, decode, h32,
      take_append_of_len a [r] 32 h32, drop_append_of_len a [r] 32 h32]
  | vPublicKey alg bs =>
    simp only [CLVal.wellFormed, Bool.and_eq_true, Bool.or_eq_true,
      decide_eq_true_eq] at h
    obtain ⟨halg, -⟩ := h
    rcases halg with ⟨rfl, hlen⟩ | ⟨rfl, hlen⟩ <;>
      simp [CLVal.tagOf, CLVal.encode, decode, hlen]
  | vNone t => rfl
  | vSome v ih =>
    simp only [CLVal.wellFormed] at h
    simp only [CLVal.tagOf, CLVal.encode, decode, ih h]
    rfl

/-- C3 witness: the round-trip law evaluated at the concrete value 255 of type
u8 and at an option-wrapped boolean. -/
theorem c3_decode_encode_roundtrip_witness :
    decode (CLVal.vU8 255).tagOf (CLVal.vU8 255).encode = some (CLVal.vU8 255) ∧
      decode (CLVal.vSome (.vBool true)).tagOf (CLVal.vSome (.vBool true)).encode =
        some (CLVal.vSome (.vBool true)) :=
  ⟨c3_decode_encode_roundtrip (.vU8 255) (by decide),
    c3_decode_encode_roundtrip (.vSome (.vBool true)) (by decide)⟩

end CasperClient
